import Mathlib

/-!
Verification of the POS order admission pipeline.

A shallow embedding of the order admission pipeline of the restaurant
point-of-sale backend (`src/main.py`, `src/models.py`), in its
database-connected mode (`database.connected = True`).

Modelling conventions:
* Python floats carrying money amounts are modelled as exact rationals `ℚ`;
  `round(x, 2)` is modelled as round-half-to-even at two decimal places on `ℚ`.
* `datetime` values are modelled as integer timestamps; comparisons between
  them are integer comparisons.
* Python `dict.get` with a default is folded into structure fields whose
  defaults are the defaults used at every access site.
* The document store is modelled explicitly: the promo-code collection is a
  `List PromoCode`, the count query behind order-number allocation is the
  natural number `ordersToday`, and the outcome of `insert_one` is the flag
  `insertOk` (`false` models the driver raising, which propagates out of the
  route handler).
* Fire-and-forget side channels (the bus publish and the notification
  dispatch in `create_order`) are wrapped in blanket `except: pass` in the
  source and cannot affect any value a claim mentions; they are not modelled
  inside `create_order`.  The events published by the two update endpoints
  are modelled explicitly, since claims are about them.
-/

namespace POS

/-- Round-half-to-even at two decimal places: the model of Python's
`round(x, 2)` (Python rounds half to even). -/
def round2 (x : ℚ) : ℚ :=
  let y := x * 100
  let f : ℤ := ⌊y⌋
  let r := y - (f : ℚ)
  let n : ℤ :=
    if r < 1/2 then f
    else if 1/2 < r then f + 1
    else if f % 2 = 0 then f else f + 1
  (n : ℚ) / 100

/-- Replace every (leftmost, non-overlapping) occurrence of `pat` in a
character list by `rep`; the model of Python's `str.replace` for a
non-empty pattern. -/
def replaceList (pat rep : List Char) : List Char → List Char
  | [] => []
  | c :: rest =>
    if 0 < pat.length ∧ (c :: rest).take pat.length = pat then
      rep ++ replaceList pat rep ((c :: rest).drop pat.length)
    else
      c :: replaceList pat rep rest
termination_by l => l.length
decreasing_by
  · simp only [List.length_drop, List.length_cons]
    omega
  · simp

/-- Python `str.replace` on strings. -/
def strReplace (s pat rep : String) : String :=
  String.mk (replaceList pat.data rep.data s.data)

/-- Python `str.upper`, restricted to ASCII case mapping. -/
def upperStr (s : String) : String :=
  String.mk (s.data.map Char.toUpper)

/-- Decimal rendering of a money amount, standing in for Python's `str()`
of the stored numeric value (integers render without a decimal point). -/
def moneyStr (q : ℚ) : String :=
  if q.den = 1 then toString q.num else toString q

/-- Truthiness of an optional integer under Python `bool()`: `None` and `0`
are falsy, every other integer is truthy. -/
def optIntTruthy : Option Int → Bool
  | none => false
  | some n => n != 0

-- ===== Data model (src/models.py) =====

/-- Model of `SelectedModifier` (src/models.py): one selected modifier on an order
item, with its price delta. -/
structure SelectedModifier where
  group_name : String
  option_name : String
  price_add : ℚ := 0
deriving DecidableEq, Repr

/-- Model of `OrderItem` (src/models.py).  The `combo_items` passthrough field
(`Optional[List[dict]]`, an untyped display aid never read by the pipeline)
is omitted. -/
structure OrderItem where
  product_id : String
  name : String
  qty : Int := 1
  price : ℚ
  modifiers : List SelectedModifier := []
  is_combo : Bool := false
deriving DecidableEq, Repr

/-- Model of `OrderCreate` (src/models.py): the submitted cart.  Field defaults are
the pydantic defaults. -/
structure OrderCreate where
  items : List OrderItem
  order_type : String := "dine_in"
  table_number : Option Int := none
  customer_name : Option String := none
  customer_phone : Option String := none
  delivery_zone : Option String := none
  notes : Option String := none
  promo_code : Option String := none
deriving DecidableEq, Repr

/-- The order document assembled by `create_order` (src/main.py lines
725-741).  Note the route assembles a plain dict which carries `subtotal`,
`discount_amount` and `promo_code` in addition to the fields of the
pydantic `Order` model.  The `created_at` timestamp is omitted (no claim
reads it). -/
structure Order where
  order_number : String
  items : List OrderItem
  subtotal : ℚ
  discount_amount : ℚ
  promo_code : Option String
  total : ℚ
  status : String
  payment_status : String
  order_type : String
  table_number : Option Int
  customer_name : Option String
  customer_phone : Option String
  delivery_zone : Option String
  notes : Option String
deriving DecidableEq, Repr

/-- Model of `PromoCode` (src/models.py), with creation-time defaults; `usage_count`
starts at 0 on creation.  Validity timestamps are integer instants. -/
structure PromoCode where
  code : String
  discount_type : String := "percentage"
  discount_value : ℚ
  valid_from : Option Int := none
  valid_to : Option Int := none
  usage_limit : Option Int := none
  min_order_amount : ℚ := 0
  is_active : Bool := true
  usage_count : Int := 0
deriving DecidableEq, Repr

/-- The `"delivery"` entry of `runtime_settings` (src/main.py lines
1221-1226), with its initial values as field defaults; every access in
`create_order` goes through `.get` with these same defaults. -/
structure DeliverySettings where
  min_order_amount : ℚ := 0
  min_order_amount_out_of_city : ℚ := 0
  min_order_message : String := "Мінімальна сума для доставки: \x7bamount\x7d грн"
  enabled : Bool := false
deriving DecidableEq, Repr

-- ===== Pricing & promotion engine (src/main.py) =====

/-- Computed as `sum(item.price * item.qty for item in data.items)`
(src/main.py line 687). -/
def orderSubtotal (items : List OrderItem) : ℚ :=
  (items.map fun i => i.price * (i.qty : ℚ)).sum

/-- Subtotal as §4.1 of the spec words it (modifiers' price deltas added
per unit before multiplication).  This is the *spec's* formula, kept
separate so it can be compared against `orderSubtotal`, the code's. -/
def subtotalSpec (items : List OrderItem) : ℚ :=
  (items.map fun i =>
    (i.price + (i.modifiers.map SelectedModifier.price_add).sum) * (i.qty : ℚ)).sum

/-- Model of `find_one({"code": code.upper()})` over the promo collection
(src/main.py line 1768); stored codes are uppercased at creation and are
unique (unique index on `code`). -/
def findPromo (db : List PromoCode) (code : String) : Option PromoCode :=
  db.find? fun p => p.code = upperStr code

/-- Model of `validate_promo_code` (src/main.py lines 1759-1788), database branch.
Returns the promo on success, or the first failing condition's
user-facing message. -/
def validate_promo_code (db : List PromoCode) (code : String) (now : Int)
    (order_total : ℚ) : Except String PromoCode :=
  match findPromo db code with
  | none => .error "Промокод не знайдено"
  | some promo =>
    if ¬ promo.is_active then .error "Промокод неактивний"
    else if (match promo.valid_from with
             | some t => decide (now < t)
             | none => false) then .error "Промокод ще не активний"
    else if (match promo.valid_to with
             | some t => decide (t < now)
             | none => false) then .error "Термін дії промокоду закінчився"
    else if optIntTruthy promo.usage_limit &&
            decide (promo.usage_limit.getD 0 ≤ promo.usage_count) then
      .error "Ліміт використання вичерпано"
    else if order_total < promo.min_order_amount then
      .error ("Мінімальна сума замовлення: " ++ moneyStr promo.min_order_amount ++ " грн")
    else .ok promo

/-- Model of `calculate_discount` (src/main.py lines 1791-1796). -/
def calculate_discount (promo : PromoCode) (order_total : ℚ) : ℚ :=
  if promo.discount_type = "percentage" then
    round2 (order_total * promo.discount_value / 100)
  else
    min promo.discount_value order_total

-- ===== Sequence allocator (src/main.py lines 656-667) =====

/-- Zero-pad a digit string to width 3, the model of the format spec
`{count:03d}` for a non-negative argument. -/
def zeroPad3 (s : String) : String :=
  if s.length < 3 then String.mk (List.replicate (3 - s.length) '0' ++ s.data)
  else s

/-- Model of `generate_order_number` (src/main.py lines 656-667), database branch:
`count` is the result of the `count_documents` query over today's orders
at allocation time; the formatted ordinal is `count` itself. -/
def generate_order_number (today : String) (count : Nat) : String :=
  "ORD-" ++ today ++ "-" ++ zeroPad3 (toString count)

-- ===== Order admission pipeline (src/main.py lines 686-768) =====

/-- The threshold selection inside the delivery-minimum check
(src/main.py lines 696-699). -/
def deliveryThreshold (s : DeliverySettings) (zone : Option String) : ℚ :=
  if zone = some "out_of_city" then s.min_order_amount_out_of_city
  else s.min_order_amount

/-- The delivery-minimum check (src/main.py lines 691-706): `some detail`
when the admission is to be rejected with HTTP 400 and that detail,
`none` when the check passes or does not apply. -/
def deliveryRejection (s : DeliverySettings) (order_type : String)
    (zone : Option String) (subtotal : ℚ) : Option String :=
  if order_type = "delivery" then
    if s.enabled then
      let m := deliveryThreshold s zone
      if 0 < m ∧ subtotal < m then
        some (strReplace s.min_order_message "\x7bamount\x7d" (moneyStr m))
      else none
    else none
  else none

/-- Model of `update_one` with a `usage_count` increment: bump
the usage count of the first (unique) promo document with this code. -/
def incrementUsage : List PromoCode → String → List PromoCode
  | [], _ => []
  | p :: ps, c =>
    if p.code = c then { p with usage_count := p.usage_count + 1 } :: ps
    else p :: incrementUsage ps c

/-- The ambient state an admission runs against: the delivery settings
snapshot, the promo collection, the store's count of orders already
created today, the current instant and its calendar day, and whether the
store insert succeeds. -/
structure Env where
  delivery : DeliverySettings := {}
  promos : List PromoCode := []
  ordersToday : Nat := 0
  now : Int := 0
  today : String := "20260101"
  insertOk : Bool := true
deriving DecidableEq, Repr

/-- The errors `create_order` can raise: the delivery-minimum HTTP 400
with its templated detail, or the store insert raising (surfaced as a
server error).  Promo-validation failures are not errors of the route. -/
inductive AdmissionError
  | belowMinimumOrder (detail : String)
  | serviceUnavailable
deriving DecidableEq, Repr

instance {ε α : Type} [DecidableEq ε] [DecidableEq α] : DecidableEq (Except ε α) := fun a b =>
  match a, b with
  | .error e, .error f =>
    if h : e = f then .isTrue (by rw [h])
    else .isFalse (by intro hc; cases hc; exact h rfl)
  | .error _, .ok _ => .isFalse (by intro hc; cases hc)
  | .ok _, .error _ => .isFalse (by intro hc; cases hc)
  | .ok x, .ok y =>
    if h : x = y then .isTrue (by rw [h])
    else .isFalse (by intro hc; cases hc; exact h rfl)

/-- Everything observable about one admission: the route's response, the
promo collection afterwards, and the persisted document, if any. -/
structure Admission where
  result : Except AdmissionError Order
  promosAfter : List PromoCode
  persisted : Option Order
deriving DecidableEq, Repr

/-- The promo block of `create_order` (src/main.py lines 708-721): the
discount amount, the recorded promo code, and the promo collection after
the usage-count increment.  The increment happens here, before the order
document is assembled or inserted. -/
def promoStep (env : Env) (data : OrderCreate) (subtotal : ℚ) :
    ℚ × Option String × List PromoCode :=
  match data.promo_code with
  | none => (0, none, env.promos)
  | some c =>
    match validate_promo_code env.promos c env.now subtotal with
    | .error _ => (0, none, env.promos)
    | .ok promo =>
      (calculate_discount promo subtotal, some promo.code,
       incrementUsage env.promos promo.code)

/-- The order document assembled at src/main.py lines 725-741, given the
priced subtotal and the promo block's result `s` (discount amount,
recorded code, promo collection). -/
def assembleOrder (env : Env) (data : OrderCreate) (subtotal : ℚ)
    (s : ℚ × Option String × List PromoCode) : Order :=
  { order_number := generate_order_number env.today env.ordersToday,
    items := data.items,
    subtotal := subtotal,
    discount_amount := s.1,
    promo_code := s.2.1,
    total := subtotal - s.1,
    status := "new",
    payment_status := "pending",
    order_type := data.order_type,
    table_number := data.table_number,
    customer_name := data.customer_name,
    customer_phone := data.customer_phone,
    delivery_zone := data.delivery_zone,
    notes := data.notes }

/-- Model of `create_order` (src/main.py lines 686-768), database branch: price the
cart, run the delivery-minimum check, apply the promo code (incrementing
its usage count immediately on success), compute the total, allocate the
order number, assemble the document, and insert it.  An insert failure
raises after the promo increment has already been applied. -/
def create_order (env : Env) (data : OrderCreate) : Admission :=
  let subtotal := orderSubtotal data.items
  match deliveryRejection env.delivery data.order_type data.delivery_zone subtotal with
  | some detail =>
    { result := .error (.belowMinimumOrder detail), promosAfter := env.promos,
      persisted := none }
  | none =>
    let s := promoStep env data subtotal
    let order := assembleOrder env data subtotal s
    if env.insertOk then
      { result := .ok order, promosAfter := s.2.2, persisted := some order }
    else
      { result := .error .serviceUnavailable, promosAfter := s.2.2, persisted := none }

-- ===== Real-time events and the update endpoints (src/main.py lines 752-820) =====

/-- The two event shapes published on the order-change topic (§6):
`new_order` carries the full order document, `order_updated` carries only
the order identifier and the new status. -/
inductive Event
  | new_order (order : Order)
  | order_updated (order_id : String) (status : String)
deriving DecidableEq, Repr

/-- The persisted order document restricted to the fields the two update
endpoints read and write: its store identifier and its two status flags. -/
structure OrderRecord where
  oid : String
  status : String
  payment_status : String
deriving DecidableEq, Repr

/-- Model of `update_one` setting `status`: set the status of
the first (unique `_id`) matching document. -/
def setStatus : List OrderRecord → String → String → List OrderRecord
  | [], _, _ => []
  | r :: rs, oid, st =>
    if r.oid = oid then { r with status := st } :: rs
    else r :: setStatus rs oid st

/-- Model of `update_one` setting `payment_status` on the first match. -/
def setPayment : List OrderRecord → String → String → List OrderRecord
  | [], _, _ => []
  | r :: rs, oid, ps =>
    if r.oid = oid then { r with payment_status := ps } :: rs
    else r :: setPayment rs oid ps

/-- Model of `update_order_status` (src/main.py lines 771-800), database branch:
validate the target status against the closed list, update the matched
document (404 when none matches), and publish an `order_updated` event
carrying the identifier and the new status.  On success it returns the
updated collection and the list of published events. -/
def update_order_status (orders : List OrderRecord) (order_id status : String) :
    Except String (List OrderRecord × List Event) :=
  if ¬ (["new", "preparing", "ready", "completed", "cancelled"].contains status) then
    .error "Invalid status"
  else if orders.all fun r => r.oid ≠ order_id then
    .error "Order not found"
  else
    .ok (setStatus orders order_id status, [Event.order_updated order_id status])

/-- Model of `update_payment_status` (src/main.py lines 803-820), database branch:
validate the target payment status, update the matched document (404 when
none matches), and return.  The handler contains no publish call, so the
event list of a successful update is empty. -/
def update_payment_status (orders : List OrderRecord) (order_id payment_status : String) :
    Except String (List OrderRecord × List Event) :=
  if ¬ (["pending", "paid"].contains payment_status) then
    .error "Invalid payment status"
  else if orders.all fun r => r.oid ≠ order_id then
    .error "Order not found"
  else
    .ok (setPayment orders order_id payment_status, [])

-- ===== Interleaving model of concurrent allocation (src/main.py 656-667, 725-750) =====

/-- One admission's progress through the allocator's two store operations:
it has not yet run the count query, it has read a count `k`
(`count_documents` at line 661), or it has inserted its formatted document
(line 748). -/
inductive TaskState
  | start
  | counted (k : Nat)
  | finished
deriving DecidableEq, Repr

/-- The store and two in-flight admissions on the same day.  `store` holds
the order numbers of today's persisted orders, so `store.length` is what
the count query returns. -/
structure AllocSys where
  store : List String
  tA : TaskState
  tB : TaskState
deriving DecidableEq, Repr

/-- Run one admission's next store operation, exactly as the source
sequences them: read `count_documents` first, then insert
`ORD-<today>-<count:03d>`.  No lock, atomic counter, or uniqueness
constraint intervenes between the two (the orders collection has no
unique index on `order_number`). -/
def taskStep (today : String) (store : List String) :
    TaskState → List String × TaskState
  | .start => (store, .counted store.length)
  | .counted k => (store ++ [generate_order_number today k], .finished)
  | .finished => (store, .finished)

/-- Schedule one step of admission A (`false`) or admission B (`true`). -/
def schedStep (today : String) (s : AllocSys) : Bool → AllocSys
  | false =>
    let r := taskStep today s.store s.tA
    { store := r.1, tA := r.2, tB := s.tB }
  | true =>
    let r := taskStep today s.store s.tB
    { store := r.1, tA := s.tA, tB := r.2 }

/-- Run an interleaving of the two admissions. -/
def runSched (today : String) : List Bool → AllocSys → AllocSys
  | [], s => s
  | b :: rest, s => runSched today rest (schedStep today s b)

-- ===== The promo-validation order as the spec words it (§4.1) =====

/-- The ordered list of (failing-condition, message) checks of §4.1, with
the usage-limit condition amended to fire only when the limit is set *and
nonzero* (the source tests the limit's truthiness, so a stored limit of 0
is treated as no limit). -/
def promoChecks (p : PromoCode) (now : Int) (total : ℚ) : List (Bool × String) :=
  [ (! p.is_active, "Промокод неактивний"),
    ((match p.valid_from with | some t => decide (now < t) | none => false),
      "Промокод ще не активний"),
    ((match p.valid_to with | some t => decide (t < now) | none => false),
      "Термін дії промокоду закінчився"),
    (optIntTruthy p.usage_limit && decide (p.usage_limit.getD 0 ≤ p.usage_count),
      "Ліміт використання вичерпано"),
    (decide (total < p.min_order_amount),
      "Мінімальна сума замовлення: " ++ moneyStr p.min_order_amount ++ " грн") ]

/-- First-failing-condition semantics of promo validation, as §4.1 words
it (amended for the nonzero-limit truthiness): `some message` of the first
failing check, `none` when every check passes. -/
def promoErrorSpec (db : List PromoCode) (code : String) (now : Int)
    (total : ℚ) : Option String :=
  match findPromo db code with
  | none => some "Промокод не знайдено"
  | some p => ((promoChecks p now total).find? fun c => c.1).map fun c => c.2

/-- The applied promo, if any, is fixed-kind with a non-negative value:
the side condition under which the discount bounds of §8 do hold. -/
def appliedPromoFixedNonneg (env : Env) (data : OrderCreate) : Bool :=
  match data.promo_code with
  | none => true
  | some c =>
    match validate_promo_code env.promos c env.now (orderSubtotal data.items) with
    | .error _ => true
    | .ok p => decide (¬ p.discount_type = "percentage") && decide (0 ≤ p.discount_value)

-- ===== Concrete instances used by witnesses and counterexamples =====

/-- A percentage promo whose value exceeds 100. -/
def pctPromo200 : PromoCode :=
  { code := "MEGA", discount_type := "percentage", discount_value := 200 }

def envPct200 : Env := { promos := [pctPromo200] }

def cartBurger100 : OrderCreate :=
  { items := [{ product_id := "p1", name := "Burger", price := 100 }],
    promo_code := some "MEGA" }

/-- A fixed promo of 10. -/
def fixedPromoTen : PromoCode :=
  { code := "TEN", discount_type := "fixed", discount_value := 10 }

def envTen : Env := { promos := [fixedPromoTen] }

def cartPizza100 : OrderCreate :=
  { items := [{ product_id := "p2", name := "Pizza", price := 100 }],
    promo_code := some "TEN" }

/-- A cart whose single item carries a modifier with a price delta. -/
def cartLatteMod : OrderCreate :=
  { items := [{ product_id := "p3", name := "Latte", price := 10,
                modifiers := [{ group_name := "Розмір", option_name := "L",
                                price_add := 5 }] }] }

def cartTwoItems : OrderCreate :=
  { items := [{ product_id := "p4", name := "Tea", qty := 2, price := 25 },
              { product_id := "p5", name := "Cake", price := 40 }] }

def cartTea : OrderCreate :=
  { items := [{ product_id := "p4", name := "Tea", price := 25 }] }

def envCount5 : Env := { ordersToday := 5 }

def envDelivery100 : Env :=
  { delivery := { enabled := true, min_order_amount := 100 } }

def cartSoup80Delivery : OrderCreate :=
  { items := [{ product_id := "p6", name := "Soup", price := 80 }],
    order_type := "delivery", delivery_zone := some "in_city" }

/-- An active promo whose stored usage limit is the integer 0 and whose
usage count is 7. -/
def limit0Promo : PromoCode :=
  { code := "LIM", discount_type := "fixed", discount_value := 5,
    usage_limit := some 0, usage_count := 7 }

/-- A promo whose validity window ended at instant 10. -/
def expiredPromo : PromoCode :=
  { code := "OLD", discount_type := "fixed", discount_value := 5,
    valid_to := some 10 }

def envExpired : Env := { promos := [expiredPromo], now := 20 }

def cartCakeOld : OrderCreate :=
  { items := [{ product_id := "p7", name := "Cake", price := 50 }],
    promo_code := some "OLD" }

def envInsertFails : Env := { promos := [fixedPromoTen], insertOk := false }

def cartCakeTen : OrderCreate :=
  { items := [{ product_id := "p8", name := "Cake", price := 50 }],
    promo_code := some "TEN" }

def oneOrderStore : List OrderRecord :=
  [{ oid := "64b0c0ffee", status := "new", payment_status := "pending" }]

def cartEmpty : OrderCreate := { items := [] }

def cartQtyZero : OrderCreate :=
  { items := [{ product_id := "p9", name := "Tea", qty := 0, price := 5 }] }

-- ===== Theorems =====

-- The rational operations are `@[irreducible]` upstream, which blocks the
-- evaluation of concrete admissions inside proofs; kernel reduction is
-- sound on them regardless.
attribute [local semireducible] Rat.add Rat.mul Rat.sub Rat.inv Rat.ofScientific

/-- Elimination principle for a successful admission: the delivery check
passed, the insert succeeded, the returned order is the assembled
document, it was persisted, and the promo collection is the promo step's
output. -/
theorem create_order_ok_elim (env : Env) (data : OrderCreate) (o : Order)
    (hok : (create_order env data).result = .ok o) :
    deliveryRejection env.delivery data.order_type data.delivery_zone
        (orderSubtotal data.items) = none
    ∧ env.insertOk = true
    ∧ o = assembleOrder env data (orderSubtotal data.items)
        (promoStep env data (orderSubtotal data.items))
    ∧ (create_order env data).persisted = some o
    ∧ (create_order env data).promosAfter
        = (promoStep env data (orderSubtotal data.items)).2.2 := by
  have hd : deliveryRejection env.delivery data.order_type data.delivery_zone
      (orderSubtotal data.items) = none := by
    cases hd : deliveryRejection env.delivery data.order_type data.delivery_zone
        (orderSubtotal data.items) with
    | none => rfl
    | some detail =>
      have hbad : (create_order env data).result
          = .error (.belowMinimumOrder detail) := by
        simp [create_order, hd]
      rw [hbad] at hok; cases hok
  have hio : env.insertOk = true := by
    cases hio : env.insertOk with
    | true => rfl
    | false =>
      have hbad : (create_order env data).result = .error .serviceUnavailable := by
        simp [create_order, hd, hio]
      rw [hbad] at hok; cases hok
  have ho : o = assembleOrder env data (orderSubtotal data.items)
      (promoStep env data (orderSubtotal data.items)) := by
    have hres : (create_order env data).result
        = .ok (assembleOrder env data (orderSubtotal data.items)
            (promoStep env data (orderSubtotal data.items))) := by
      simp [create_order, hd, hio]
    rw [hres] at hok
    exact (Except.ok.inj hok).symm
  exact ⟨hd, hio, ho, by simp [create_order, hd, hio, ho],
    by simp [create_order, hd, hio]⟩

/-- C10: Every order produced by a successful admission is persisted and
returned with status `"new"` and payment status `"pending"`, regardless
of the submitted cart's contents. -/
theorem admitted_order_status_new_payment_pending (env : Env) (data : OrderCreate)
    (o : Order) (hok : (create_order env data).result = .ok o) :
    o.status = "new" ∧ o.payment_status = "pending"
      ∧ (create_order env data).persisted = some o := by
  obtain ⟨-, -, rfl, hpers, -⟩ := create_order_ok_elim env data o hok
  exact ⟨rfl, rfl, hpers⟩

/-- Witness for C10: the empty dine-in cart admits with status `"new"`,
payment status `"pending"`, and is persisted. -/
theorem admitted_order_status_new_payment_pending_witness :
    (assembleOrder {} { items := [] } (orderSubtotal ([] : List OrderItem))
        (promoStep {} { items := [] } (orderSubtotal ([] : List OrderItem)))).status = "new"
    ∧ (assembleOrder {} { items := [] } (orderSubtotal ([] : List OrderItem))
        (promoStep {} { items := [] } (orderSubtotal ([] : List OrderItem)))).payment_status
        = "pending"
    ∧ (create_order {} { items := [] }).persisted
        = some (assembleOrder {} { items := [] } (orderSubtotal ([] : List OrderItem))
            (promoStep {} { items := [] } (orderSubtotal ([] : List OrderItem)))) :=
  admitted_order_status_new_payment_pending {} { items := [] } _ (by decide)

/-- C9 (amended): admission copies the submitted line items into the order
unchanged; no non-emptiness or minimum-quantity constraint is enforced on
them. -/
theorem admitted_items_unchanged (env : Env) (data : OrderCreate) (o : Order)
    (hok : (create_order env data).result = .ok o) : o.items = data.items := by
  obtain ⟨-, -, rfl, -, -⟩ := create_order_ok_elim env data o hok
  rfl

/-- Witness for C9's amended theorem at a one-item cart. -/
theorem admitted_items_unchanged_witness :
    (assembleOrder {} cartTea (orderSubtotal cartTea.items)
        (promoStep {} cartTea (orderSubtotal cartTea.items))).items = cartTea.items :=
  admitted_items_unchanged {} cartTea _ (by decide)

/-- Counterexample to C9 as stated: an empty cart is admitted (the order's
line-item list is empty), and a cart whose single item has quantity 0 is
admitted as well. -/
theorem empty_cart_and_zero_qty_admitted :
    ((create_order {} cartEmpty).result.map Order.items) = .ok []
    ∧ ((create_order {} cartQtyZero).result.map fun o => o.items.map OrderItem.qty)
        = .ok [0] := by
  decide

/-- C2 (amended): the subtotal of every admitted order is the sum over the
submitted line items of unit price × quantity; modifier price deltas are
not added by admission. -/
theorem admitted_subtotal_price_times_qty (env : Env) (data : OrderCreate)
    (o : Order) (hok : (create_order env data).result = .ok o) :
    o.subtotal = (data.items.map fun i => i.price * (i.qty : ℚ)).sum := by
  obtain ⟨-, -, rfl, -, -⟩ := create_order_ok_elim env data o hok
  rfl

/-- Witness for C2's amended theorem at a two-item cart. -/
theorem admitted_subtotal_price_times_qty_witness :
    (assembleOrder {} cartTwoItems (orderSubtotal cartTwoItems.items)
        (promoStep {} cartTwoItems (orderSubtotal cartTwoItems.items))).subtotal
      = (cartTwoItems.items.map fun i => i.price * (i.qty : ℚ)).sum :=
  admitted_subtotal_price_times_qty {} cartTwoItems _ (by decide)

/-- Counterexample to C2 as stated: on a cart whose item has unit price 10
and a modifier with price delta 5, admission computes subtotal 10, while
the spec's formula (deltas added per unit) gives 15. -/
theorem subtotal_ignores_modifier_deltas :
    ((create_order {} cartLatteMod).result.map Order.subtotal) = .ok 10
    ∧ subtotalSpec cartLatteMod.items = 15
    ∧ (10 : ℚ) ≠ 15 := by
  decide

/-- The length of a string built from an explicit character list. -/
theorem string_mk_length (l : List Char) : (String.mk l).length = l.length := rfl

/-- The zero-padded ordinal field has width `max 3 (number of digits)`:
padded to at least 3 digits, widening beyond 999. -/
theorem zeroPad3_length (s : String) :
    (zeroPad3 s).length = max 3 s.length := by
  unfold zeroPad3
  by_cases h : s.length < 3
  · rw [if_pos h, string_mk_length, List.length_append, List.length_replicate]
    have hsd : s.data.length = s.length := rfl
    omega
  · rw [if_neg h]
    omega

/-- C3 (amended): every admitted order's number is
`ORD-<today>-<ordinal>` where the ordinal is the store's count of orders
already created today at allocation time (no plus one), zero-padded to at
least 3 digits, the field widening when the count needs more digits. -/
theorem order_number_shape_and_padding (env : Env) (data : OrderCreate)
    (o : Order) (hok : (create_order env data).result = .ok o) :
    o.order_number = "ORD-" ++ env.today ++ "-" ++ zeroPad3 (toString env.ordersToday)
    ∧ (zeroPad3 (toString env.ordersToday)).length
        = max 3 (toString env.ordersToday).length := by
  obtain ⟨-, -, rfl, -, -⟩ := create_order_ok_elim env data o hok
  exact ⟨rfl, zeroPad3_length _⟩

/-- Witness for C3's amended theorem with five orders already created
today. -/
theorem order_number_shape_and_padding_witness :
    (assembleOrder envCount5 cartTea (orderSubtotal cartTea.items)
        (promoStep envCount5 cartTea (orderSubtotal cartTea.items))).order_number
      = "ORD-" ++ envCount5.today ++ "-" ++ zeroPad3 (toString envCount5.ordersToday)
    ∧ (zeroPad3 (toString envCount5.ordersToday)).length
        = max 3 (toString envCount5.ordersToday).length :=
  order_number_shape_and_padding envCount5 cartTea _ (by decide)

/-- Counterexample to C3 as stated: with zero orders created so far today,
the allocated number's ordinal is `000` (the count itself) and not `001`
(the count plus one). -/
theorem first_order_of_day_numbered_zero :
    ((create_order { ordersToday := 0 } cartTea).result.map Order.order_number)
      = .ok "ORD-20260101-000"
    ∧ "ORD-20260101-000" ≠ "ORD-20260101-001" := by
  decide

/-- Under the fixed-kind, non-negative-value side condition, the promo
step's discount lies between 0 and the subtotal. -/
theorem promoStep_discount_bounds (env : Env) (data : OrderCreate)
    (hsub : 0 ≤ orderSubtotal data.items)
    (hsafe : appliedPromoFixedNonneg env data = true) :
    0 ≤ (promoStep env data (orderSubtotal data.items)).1
    ∧ (promoStep env data (orderSubtotal data.items)).1 ≤ orderSubtotal data.items := by
  cases hpc : data.promo_code with
  | none =>
    simp only [promoStep, hpc]
    exact ⟨le_refl 0, hsub⟩
  | some c =>
    simp only [appliedPromoFixedNonneg, hpc] at hsafe
    cases hv : validate_promo_code env.promos c env.now (orderSubtotal data.items) with
    | error e =>
      simp only [promoStep, hpc, hv]
      exact ⟨le_refl 0, hsub⟩
    | ok p =>
      simp only [hv, Bool.and_eq_true, decide_eq_true_eq] at hsafe
      obtain ⟨hty, hval⟩ := hsafe
      simp only [promoStep, hpc, hv]
      unfold calculate_discount
      rw [if_neg hty]
      exact ⟨le_min hval hsub, min_le_right _ _⟩

/-- C1 (amended): every admitted order satisfies
`total = subtotal − discount_amount`; the bounds
`0 ≤ discount_amount ≤ subtotal` additionally hold whenever the cart's
subtotal is non-negative and the applied promo (if any) is fixed-kind
with a non-negative value — a percentage-kind promo can push the discount
past the subtotal (see the counterexample). -/
theorem order_total_discount_invariant (env : Env) (data : OrderCreate)
    (o : Order) (hok : (create_order env data).result = .ok o) :
    o.total = o.subtotal - o.discount_amount
    ∧ (0 ≤ orderSubtotal data.items → appliedPromoFixedNonneg env data = true →
        0 ≤ o.discount_amount ∧ o.discount_amount ≤ o.subtotal) := by
  obtain ⟨-, -, rfl, -, -⟩ := create_order_ok_elim env data o hok
  exact ⟨rfl, fun hsub hsafe => promoStep_discount_bounds env data hsub hsafe⟩

/-- Witness for C1's amended theorem: a fixed promo of 10 on a subtotal of
100. -/
theorem order_total_discount_invariant_witness :
    ((assembleOrder envTen cartPizza100 (orderSubtotal cartPizza100.items)
        (promoStep envTen cartPizza100 (orderSubtotal cartPizza100.items))).total
      = (assembleOrder envTen cartPizza100 (orderSubtotal cartPizza100.items)
          (promoStep envTen cartPizza100 (orderSubtotal cartPizza100.items))).subtotal
        - (assembleOrder envTen cartPizza100 (orderSubtotal cartPizza100.items)
            (promoStep envTen cartPizza100 (orderSubtotal cartPizza100.items))).discount_amount)
    ∧ (0 ≤ (assembleOrder envTen cartPizza100 (orderSubtotal cartPizza100.items)
          (promoStep envTen cartPizza100 (orderSubtotal cartPizza100.items))).discount_amount
        ∧ (assembleOrder envTen cartPizza100 (orderSubtotal cartPizza100.items)
            (promoStep envTen cartPizza100 (orderSubtotal cartPizza100.items))).discount_amount
          ≤ (assembleOrder envTen cartPizza100 (orderSubtotal cartPizza100.items)
              (promoStep envTen cartPizza100 (orderSubtotal cartPizza100.items))).subtotal) :=
  ⟨(order_total_discount_invariant envTen cartPizza100 _ (by decide)).1,
   (order_total_discount_invariant envTen cartPizza100 _ (by decide)).2
     (by decide) (by decide)⟩

/-- Counterexample to C1 as stated: a percentage promo with value 200 on a
subtotal of 100 is admitted with discount 200 and total −100, violating
`discount_amount ≤ subtotal`. -/
theorem percentage_discount_exceeds_subtotal :
    ((create_order envPct200 cartBurger100).result.map
        fun o => (o.subtotal, o.discount_amount, o.total)) = .ok (100, 200, -100)
    ∧ ¬ ((200 : ℚ) ≤ 100) := by
  decide

/-- The delivery-minimum check rejects exactly under the condition of
§4.1, with the templated message. -/
theorem deliveryRejection_characterization (s : DeliverySettings) (t : String)
    (z : Option String) (sub : ℚ) :
    deliveryRejection s t z sub
      = if t = "delivery" ∧ s.enabled = true ∧ 0 < deliveryThreshold s z
            ∧ sub < deliveryThreshold s z
        then some (strReplace s.min_order_message "\x7bamount\x7d"
            (moneyStr (deliveryThreshold s z)))
        else none := by
  unfold deliveryRejection
  by_cases h1 : t = "delivery"
  · by_cases h2 : s.enabled = true
    · by_cases h3 : 0 < deliveryThreshold s z ∧ sub < deliveryThreshold s z
      · rw [if_pos h1, if_pos h2, if_pos h3, if_pos ⟨h1, h2, h3.1, h3.2⟩]
      · rw [if_pos h1, if_pos h2, if_neg h3,
          if_neg (by intro hc; exact h3 ⟨hc.2.2.1, hc.2.2.2⟩)]
    · rw [if_pos h1, if_neg h2, if_neg (by intro hc; exact h2 hc.2.1)]
  · rw [if_neg h1, if_neg (by intro hc; exact h1 hc.1)]

/-- C4: an admission with order type `"delivery"` is rejected with the
`BelowMinimumOrder` error — before any promo usage increment and with
nothing persisted — exactly when delivery is enabled, the zone-applicable
threshold is positive, and the subtotal is strictly below it; the
rejection detail is the settings template with `\x7bamount\x7d` replaced
by the threshold. -/
theorem delivery_minimum_rejection_iff (env : Env) (data : OrderCreate) :
    ((∃ d, (create_order env data).result = .error (.belowMinimumOrder d))
      ↔ data.order_type = "delivery" ∧ env.delivery.enabled = true
          ∧ 0 < deliveryThreshold env.delivery data.delivery_zone
          ∧ orderSubtotal data.items < deliveryThreshold env.delivery data.delivery_zone)
    ∧ ((data.order_type = "delivery" ∧ env.delivery.enabled = true
          ∧ 0 < deliveryThreshold env.delivery data.delivery_zone
          ∧ orderSubtotal data.items < deliveryThreshold env.delivery data.delivery_zone) →
        (create_order env data).result
            = .error (.belowMinimumOrder (strReplace env.delivery.min_order_message
                "\x7bamount\x7d" (moneyStr (deliveryThreshold env.delivery data.delivery_zone))))
        ∧ (create_order env data).promosAfter = env.promos
        ∧ (create_order env data).persisted = none) := by
  have hchar := deliveryRejection_characterization env.delivery data.order_type
    data.delivery_zone (orderSubtotal data.items)
  by_cases hC : data.order_type = "delivery" ∧ env.delivery.enabled = true
      ∧ 0 < deliveryThreshold env.delivery data.delivery_zone
      ∧ orderSubtotal data.items < deliveryThreshold env.delivery data.delivery_zone
  · rw [if_pos hC] at hchar
    refine ⟨⟨fun _ => hC, fun _ =>
        ⟨strReplace env.delivery.min_order_message "\x7bamount\x7d"
          (moneyStr (deliveryThreshold env.delivery data.delivery_zone)),
         by simp [create_order, hchar]⟩⟩,
      fun _ => ⟨by simp [create_order, hchar], by simp [create_order, hchar],
        by simp [create_order, hchar]⟩⟩
  · rw [if_neg hC] at hchar
    refine ⟨⟨fun hex => absurd ?_ hC, fun hc => absurd hc hC⟩, fun hc => absurd hc hC⟩
    obtain ⟨d, hd⟩ := hex
    exact absurd hd (by cases hio : env.insertOk <;> simp [create_order, hchar, hio])

/-- Witness for C4: a delivery cart with subtotal 80, zone `"in_city"`,
standard minimum 100 and delivery enabled is rejected with the templated
message, no promo touched and nothing persisted. -/
theorem delivery_minimum_rejection_iff_witness :
    (create_order envDelivery100 cartSoup80Delivery).result
      = .error (.belowMinimumOrder (strReplace envDelivery100.delivery.min_order_message
          "\x7bamount\x7d" (moneyStr (deliveryThreshold envDelivery100.delivery
            cartSoup80Delivery.delivery_zone))))
    ∧ (create_order envDelivery100 cartSoup80Delivery).promosAfter = envDelivery100.promos
    ∧ (create_order envDelivery100 cartSoup80Delivery).persisted = none :=
  (delivery_minimum_rejection_iff envDelivery100 cartSoup80Delivery).2 (by decide)

/-- Promo validation fails with a message exactly when the first-failing
check of the ordered §4.1 list produces that message. -/
theorem validate_error_iff (db : List PromoCode) (code : String) (now : Int)
    (total : ℚ) (e : String) :
    validate_promo_code db code now total = .error e
      ↔ promoErrorSpec db code now total = some e := by
  cases hf : findPromo db code with
  | none => simp [validate_promo_code, promoErrorSpec, hf]
  | some q =>
    simp only [validate_promo_code, promoErrorSpec, promoChecks, hf, List.find?]
    by_cases h1 : q.is_active <;>
    by_cases h2 : (match q.valid_from with
                   | some t => decide (now < t) | none => false) = true <;>
    by_cases h3 : (match q.valid_to with
                   | some t => decide (t < now) | none => false) = true <;>
    by_cases h4 : (optIntTruthy q.usage_limit &&
        decide (q.usage_limit.getD 0 ≤ q.usage_count)) = true <;>
    by_cases h5 : total < q.min_order_amount <;>
    simp [h1, h2, h3, h4, h5]

/-- Promo validation succeeds with a promo exactly when every check of the
ordered §4.1 list passes and the lookup found that promo. -/
theorem validate_ok_iff (db : List PromoCode) (code : String) (now : Int)
    (total : ℚ) (p : PromoCode) :
    validate_promo_code db code now total = .ok p
      ↔ promoErrorSpec db code now total = none ∧ findPromo db code = some p := by
  cases hf : findPromo db code with
  | none => simp [validate_promo_code, promoErrorSpec, hf]
  | some q =>
    simp only [validate_promo_code, promoErrorSpec, promoChecks, hf, List.find?]
    by_cases h1 : q.is_active <;>
    by_cases h2 : (match q.valid_from with
                   | some t => decide (now < t) | none => false) = true <;>
    by_cases h3 : (match q.valid_to with
                   | some t => decide (t < now) | none => false) = true <;>
    by_cases h4 : (optIntTruthy q.usage_limit &&
        decide (q.usage_limit.getD 0 ≤ q.usage_count)) = true <;>
    by_cases h5 : total < q.min_order_amount <;>
    simp [h1, h2, h3, h4, h5]

/-- C5 (amended): promo validation returns the error of the first failing
condition of the fixed §4.1 order — with the usage-limit condition firing
only when the stored limit is truthy (set *and* nonzero) — and a failed
promo is non-fatal: the admission leaves the promo collection untouched,
any order it returns carries zero discount and no promo code, and when
the delivery check passes and the insert succeeds the admission does
succeed. -/
theorem promo_validation_first_failure_and_nonfatal :
    (∀ db code now total e,
        validate_promo_code db code now total = .error e
          ↔ promoErrorSpec db code now total = some e)
    ∧ (∀ db code now total p,
        validate_promo_code db code now total = .ok p
          ↔ promoErrorSpec db code now total = none ∧ findPromo db code = some p)
    ∧ (∀ (env : Env) (data : OrderCreate) (c e : String),
        data.promo_code = some c →
        validate_promo_code env.promos c env.now (orderSubtotal data.items) = .error e →
        (create_order env data).promosAfter = env.promos
        ∧ (∀ o, (create_order env data).result = .ok o →
            o.discount_amount = 0 ∧ o.promo_code = none)
        ∧ (deliveryRejection env.delivery data.order_type data.delivery_zone
              (orderSubtotal data.items) = none → env.insertOk = true →
            (create_order env data).result
              = .ok (assembleOrder env data (orderSubtotal data.items)
                  (0, none, env.promos)))) := by
  refine ⟨validate_error_iff, validate_ok_iff, fun env data c e hpc hval => ?_⟩
  have hstep : promoStep env data (orderSubtotal data.items) = (0, none, env.promos) := by
    simp [promoStep, hpc, hval]
  refine ⟨?_, ?_, ?_⟩
  · cases hd : deliveryRejection env.delivery data.order_type data.delivery_zone
        (orderSubtotal data.items) with
    | some d => simp [create_order, hd]
    | none => cases hio : env.insertOk <;> simp [create_order, hd, hio, hstep]
  · intro o hok
    obtain ⟨-, -, rfl, -, -⟩ := create_order_ok_elim env data o hok
    simp [assembleOrder, hstep]
  · intro hd hio
    simp [create_order, hd, hio, hstep]

/-- Witness for C5: an expired promo (validity ended at instant 10, now
20) fails validation, yet the admission succeeds with zero discount and
the promo collection untouched. -/
theorem promo_validation_first_failure_and_nonfatal_witness :
    (create_order envExpired cartCakeOld).promosAfter = envExpired.promos
    ∧ (create_order envExpired cartCakeOld).result
        = .ok (assembleOrder envExpired cartCakeOld (orderSubtotal cartCakeOld.items)
            (0, none, envExpired.promos)) :=
  ⟨(promo_validation_first_failure_and_nonfatal.2.2 envExpired cartCakeOld "OLD"
      "Термін дії промокоду закінчився" rfl (by decide)).1,
   (promo_validation_first_failure_and_nonfatal.2.2 envExpired cartCakeOld "OLD"
      "Термін дії промокоду закінчився" rfl (by decide)).2.2 (by decide) rfl⟩

/-- Counterexample to C5 as stated: a stored usage limit of the integer 0
is "set", and the usage count 7 is ≥ 0, so the claim's ordering demands
the usage-exceeded error — but validation succeeds, because the source
tests the limit's truthiness and 0 is falsy. -/
theorem usage_limit_zero_treated_as_unlimited :
    limit0Promo.usage_limit = some 0
    ∧ (0 : Int) ≤ limit0Promo.usage_count
    ∧ validate_promo_code [limit0Promo] "LIM" 0 50 = .ok limit0Promo := by
  decide

/-- C6 is violated by the code: the usage-count increment runs before the
store insert, so when the insert fails the admission errors with nothing
persisted while the promo's usage count has still risen from 0 to 1 — a
charged promo use with no resulting order, never compensated. -/
theorem promo_usage_charged_despite_insert_failure :
    (create_order envInsertFails cartCakeTen).result = .error .serviceUnavailable
    ∧ (create_order envInsertFails cartCakeTen).persisted = none
    ∧ (create_order envInsertFails cartCakeTen).promosAfter
        = [{ fixedPromoTen with usage_count := 1 }] := by
  decide

/-- C7 is violated by the code: interleaving two same-day admissions as
(count A, count B, insert A, insert B) makes both read the same store
count and persist the same order number, while running them serially
yields distinct numbers — the count-then-format allocation has no
serialization, atomic counter, or uniqueness constraint closing the
race. -/
theorem interleaved_admissions_duplicate_order_number :
    (runSched "20260101" [false, true, false, true]
        { store := [], tA := .start, tB := .start }).store
      = ["ORD-20260101-000", "ORD-20260101-000"]
    ∧ ¬ (runSched "20260101" [false, true, false, true]
        { store := [], tA := .start, tB := .start }).store.Nodup
    ∧ (runSched "20260101" [false, false, true, true]
        { store := [], tA := .start, tB := .start }).store
      = ["ORD-20260101-000", "ORD-20260101-001"] := by
  decide

/-- C8 (amended): every successful status update publishes exactly one
`order_updated` event carrying the order identifier and the new status
(and no order body), while a successful payment-status update publishes
no event at all. -/
theorem update_events_published :
    (∀ (orders : List OrderRecord) (order_id status : String) out,
        update_order_status orders order_id status = .ok out →
        out.2 = [Event.order_updated order_id status])
    ∧ (∀ (orders : List OrderRecord) (order_id payment_status : String) out,
        update_payment_status orders order_id payment_status = .ok out →
        out.2 = []) := by
  constructor
  · intro orders order_id status out h
    unfold update_order_status at h
    split_ifs at h
    exact (congrArg Prod.snd (Except.ok.inj h)).symm
  · intro orders order_id payment_status out h
    unfold update_payment_status at h
    split_ifs at h
    exact (congrArg Prod.snd (Except.ok.inj h)).symm

/-- Witness for C8's amended theorem on a one-order store. -/
theorem update_events_published_witness :
    ((setStatus oneOrderStore "64b0c0ffee" "preparing",
        [Event.order_updated "64b0c0ffee" "preparing"]) : List OrderRecord × List Event).2
      = [Event.order_updated "64b0c0ffee" "preparing"]
    ∧ ((setPayment oneOrderStore "64b0c0ffee" "paid",
        ([] : List Event)) : List OrderRecord × List Event).2 = [] :=
  ⟨update_events_published.1 oneOrderStore "64b0c0ffee" "preparing"
      (setStatus oneOrderStore "64b0c0ffee" "preparing",
        [Event.order_updated "64b0c0ffee" "preparing"]) (by decide),
   update_events_published.2 oneOrderStore "64b0c0ffee" "paid"
      (setPayment oneOrderStore "64b0c0ffee" "paid", []) (by decide)⟩

/-- Counterexample to C8 as stated: a successful payment-status update
publishes no `order_updated` event (its event list is empty). -/
theorem payment_update_publishes_no_event :
    update_payment_status oneOrderStore "64b0c0ffee" "paid"
      = .ok ([{ oid := "64b0c0ffee", status := "new", payment_status := "paid" }], [])
    ∧ ([] : List Event) ≠ [Event.order_updated "64b0c0ffee" "paid"] := by
  decide

end POS
